import Mathlib

/-!
Shallow embedding of the catalog-proj product service (Go) and proofs about it.

Conventions used throughout:
- `time.Time` instants are modelled as `ℤ`; Go's `t.Before u` is `t < u` and
  `t.After u` is `u < t` (both strict, as in the Go standard library).
- `*big.Rat` (the `Money` type) is modelled as `ℚ`; `big.NewRat n d` is `mkRat n d`
  (Go panics when `d = 0`, a case no embedded caller exercises).
- Go pointers that may be `nil` become `Option`; fallible methods that in Go
  mutate the receiver and return `error` become functions returning
  `Except DomainError Product` with the updated aggregate, the receiver being
  left untouched exactly when the Go method returns before its first mutation.
-/

deriving instance DecidableEq for Except

namespace Catalog

/-- Money (money.go): `NewMoney(amount int64)` builds `amount/100`.
The test suite's later two-argument variant ignores its currency string and
builds the same value. -/
def NewMoney (amount : ℤ) : ℚ := mkRat amount 100

/-- Money (money.go): `NewMoneyFromFraction(numerator, denominator int64)` is
`big.NewRat(numerator, denominator)`: the exact quotient for every nonzero
denominator (Go panics when the denominator is 0; no embedded caller passes 0). -/
def NewMoneyFromFraction (numerator denominator : ℤ) : ℚ :=
  (numerator : ℚ) / (denominator : ℚ)

/-- Money (money.go): `Add(m, other Money)` returns the exact rational sum. -/
def Add (m other : ℚ) : ℚ := m + other

/-- Money (money.go): `Subtract(m, other Money)` returns the exact rational difference. -/
def Subtract (m other : ℚ) : ℚ := m - other

/-- Money (money.go): `Multiply(m, other Money)` returns the exact rational product. -/
def Multiply (m other : ℚ) : ℚ := m * other

/-- Discount value object (discount.go). `Amount` is a `*Money` in Go and may be nil. -/
structure Discount where
  ID : String
  Amount : Option ℚ
  StartDate : ℤ
  EndDate : ℤ
deriving DecidableEq, Repr

/-- Discount.IsValidAt as implemented in discount.go:
`now.After(d.StartDate) && now.Before(d.EndDate)`, i.e. strict at both ends.
The package's own tests (discount_test.go, "invalid at exact start date (not
after)") pin down this version as the live one. -/
def Discount.IsValidAt (d : Discount) (now : ℤ) : Bool :=
  decide (d.StartDate < now) && decide (now < d.EndDate)

/-- The other copy of Discount.IsValidAt that appears in the repository
(bundled in domain_events.go): `!now.Before(d.StartDate) && now.Before(d.EndDate)`,
i.e. inclusive start, exclusive end. It differs from `Discount.IsValidAt`
exactly at `now = d.StartDate`. -/
def Discount.IsValidAt' (d : Discount) (now : ℤ) : Bool :=
  !(decide (now < d.StartDate)) && decide (now < d.EndDate)

/-- Sentinel domain errors (domain_errors.go). -/
inductive DomainError where
  | ErrProductNotActive
  | ErrInvalidDiscountPeriod
  | ErrProductNotFound
  | ErrProductAlreadyArchived
  | ErrDiscountAlreadyActive
  | ErrInvalidPrice
  | ErrProductHasActiveDiscount
  | ErrInvalidProductName
  | ErrInvalidProductDescription
  | ErrInvalidProductCategory
  | ErrInvalidDiscountID
  | ErrInvalidDiscountAmount
  | ErrInvalidDiscountDateRange
deriving DecidableEq, Repr

/-- DomainError.Error() (domain_errors.go): `Code + ": " + Message`. -/
def DomainError.Error : DomainError → String
  | .ErrProductNotActive => "product_not_active: product is not active"
  | .ErrInvalidDiscountPeriod =>
      "invalid_discount_period: discount is not valid at the specified time"
  | .ErrProductNotFound => "product_not_found: product not found"
  | .ErrProductAlreadyArchived => "product_already_archived: product already archived"
  | .ErrDiscountAlreadyActive => "discount_already_active: discount already active"
  | .ErrInvalidPrice => "invalid_price: price is invalid"
  | .ErrProductHasActiveDiscount =>
      "product_has_active_discount: cannot deactivate product with active discount"
  | .ErrInvalidProductName => "invalid_product_name: product name cannot be empty"
  | .ErrInvalidProductDescription =>
      "invalid_product_description: product description cannot be empty"
  | .ErrInvalidProductCategory =>
      "invalid_product_category: product category cannot be empty"
  | .ErrInvalidDiscountID => "invalid_discount_id: discount id cannot be empty"
  | .ErrInvalidDiscountAmount =>
      "invalid_discount_amount: discount amount must be between 0 and 100%"
  | .ErrInvalidDiscountDateRange =>
      "invalid_discount_date_range: discount start date must be before end date"

/-- Domain events (domain_events.go), as a closed tagged union. Each variant
carries the payload fields of the corresponding Go event struct. -/
inductive DomainEvent where
  | ProductCreatedEvent (ProductID Name Category : String)
      (BasePrice : Option ℚ) (CreatedAt : ℤ)
  | ProductUpdatedEvent (ProductID : String) (UpdatedAt : ℤ) (ChangedFields : List String)
  | DiscountAppliedEvent (ProductID DiscountID : String) (AppliedAt : ℤ)
  | ProductActivatedEvent (ProductID : String) (ActivatedAt : ℤ)
  | ProductDeactivatedEvent (ProductID : String) (DeactivatedAt : ℤ)
  | ProductArchivedEvent (ProductID : String) (ArchivedAt : ℤ)
  | DiscountRemovedEvent (ProductID : String) (RemovedAt : ℤ)
deriving DecidableEq, Repr

/-- EventName() of each event struct (domain_events.go). -/
def DomainEvent.EventName : DomainEvent → String
  | .ProductCreatedEvent _ _ _ _ _ => "product_created"
  | .ProductUpdatedEvent _ _ _ => "product_updated"
  | .DiscountAppliedEvent _ _ _ => "discount_applied"
  | .ProductActivatedEvent _ _ => "product_activated"
  | .ProductDeactivatedEvent _ _ => "product_deactivated"
  | .ProductArchivedEvent _ _ => "product_archived"
  | .DiscountRemovedEvent _ _ => "discount_removed"

/-- The `"product_id"` entry every EventData() map carries (domain_events.go);
the interactors read it back as the outbox aggregate id. -/
def DomainEvent.productID : DomainEvent → String
  | .ProductCreatedEvent pid _ _ _ _ => pid
  | .ProductUpdatedEvent pid _ _ => pid
  | .DiscountAppliedEvent pid _ _ => pid
  | .ProductActivatedEvent pid _ => pid
  | .ProductDeactivatedEvent pid _ => pid
  | .ProductArchivedEvent pid _ => pid
  | .DiscountRemovedEvent pid _ => pid

/-- ChangeTracker (domain_events.go): a dirty-field set backed by a
`map[string]bool`, modelled as the list of field names that were marked. -/
structure ChangeTracker where
  dirtyFields : List String
deriving DecidableEq, Repr

/-- ChangeTracker.MarkDirty sets the field's entry to true. -/
def ChangeTracker.MarkDirty (ct : ChangeTracker) (field : String) : ChangeTracker :=
  ⟨field :: ct.dirtyFields⟩

/-- ChangeTracker.Dirty: membership in the dirty set; false on an untouched tracker. -/
def ChangeTracker.Dirty (ct : ChangeTracker) (field : String) : Bool :=
  ct.dirtyFields.contains field

/-- ProductStatus constant "active" (domain_events.go). -/
def ProductStatusActive : String := "active"

/-- ProductStatus constant "inactive" (domain_events.go). -/
def ProductStatusInactive : String := "inactive"

/-- Dirty-field name constant (domain_events.go). -/
def FieldDiscount : String := "discount"

/-- Dirty-field name constant (domain_events.go). -/
def FieldName : String := "name"

/-- Dirty-field name constant (domain_events.go). -/
def FieldDescription : String := "description"

/-- Dirty-field name constant (domain_events.go). -/
def FieldCategory : String := "category"

/-- Dirty-field name constant (domain_events.go). -/
def FieldStatus : String := "status"

/-- Dirty-field name constant (domain_events.go). -/
def FieldArchivedAt : String := "archived_at"

/-- The Product aggregate (domain_events.go). `status` is a Go string type whose
zero value is the empty string (the implicit never-activated state). -/
structure Product where
  id : String
  name : String
  description : String
  category : String
  basePrice : Option ℚ
  discount : Option Discount
  status : String
  changes : ChangeTracker
  events : List DomainEvent
  archivedAt : Option ℤ
  createdAt : ℤ
  updatedAt : ℤ
deriving DecidableEq, Repr

/-- NewProduct (domain_events.go): fresh aggregate with empty tracker and event
list; status is the Go zero value "". -/
def NewProduct (id name description category : String) (basePrice : Option ℚ) : Product :=
  { id := id, name := name, description := description, category := category
    basePrice := basePrice, discount := none, status := ""
    changes := ⟨[]⟩, events := [], archivedAt := none, createdAt := 0, updatedAt := 0 }

/-- ReconstructProduct (domain_events.go): rebuilds an aggregate from persisted
data; the change tracker and pending-event list are reset. -/
def ReconstructProduct (id name description category : String) (basePrice : Option ℚ)
    (discount : Option Discount) (status : String) (archivedAt : Option ℤ)
    (createdAt updatedAt : ℤ) : Product :=
  { id := id, name := name, description := description, category := category
    basePrice := basePrice, discount := discount, status := status
    changes := ⟨[]⟩, events := [], archivedAt := archivedAt
    createdAt := createdAt, updatedAt := updatedAt }

/-- Product.ApplyDiscount (domain_events.go). Guards: status must be "active",
the discount must be valid at `now`, and no currently valid discount may already
be attached. Note the method has no archivedAt guard. -/
def Product.ApplyDiscount (p : Product) (discount : Discount) (now : ℤ) :
    Except DomainError Product :=
  if p.status ≠ ProductStatusActive then
    .error .ErrProductNotActive
  else if ¬ discount.IsValidAt now then
    .error .ErrInvalidDiscountPeriod
  else if (match p.discount with
           | some d => d.IsValidAt now
           | none => false) then
    .error .ErrDiscountAlreadyActive
  else
    .ok { p with discount := some discount
                 changes := p.changes.MarkDirty FieldDiscount
                 events := p.events ++ [.DiscountAppliedEvent p.id discount.ID now] }

/-- Product.UpdateDetails (domain_events.go): rejected when archived; otherwise
each of name/description/category is written and marked dirty only if changed. -/
def Product.UpdateDetails (p : Product) (name description category : String) :
    Except DomainError Product :=
  if p.archivedAt.isSome then
    .error .ErrProductAlreadyArchived
  else
    let p1 := if name ≠ p.name then
        { p with name := name, changes := p.changes.MarkDirty FieldName }
      else p
    let p2 := if description ≠ p1.description then
        { p1 with description := description
                  changes := p1.changes.MarkDirty FieldDescription }
      else p1
    let p3 := if category ≠ p2.category then
        { p2 with category := category
                  changes := p2.changes.MarkDirty FieldCategory }
      else p2
    .ok p3

/-- Product.Activate (domain_events.go). The Go body stamps the event with
`time.Now()`; that clock reading is the explicit `now` argument here. -/
def Product.Activate (p : Product) (now : ℤ) : Except DomainError Product :=
  if p.archivedAt.isSome then
    .error .ErrProductAlreadyArchived
  else if p.status = ProductStatusActive then
    .ok p
  else
    .ok { p with status := ProductStatusActive
                 changes := p.changes.MarkDirty FieldStatus
                 events := p.events ++ [.ProductActivatedEvent p.id now] }

/-- Product.Deactivate (domain_events.go). The Go body reads `time.Now()` for
the discount-validity check and the event stamp; that reading is `now` here. -/
def Product.Deactivate (p : Product) (now : ℤ) : Except DomainError Product :=
  if p.archivedAt.isSome then
    .error .ErrProductAlreadyArchived
  else if (match p.discount with
           | some d => d.IsValidAt now
           | none => false) then
    .error .ErrProductHasActiveDiscount
  else if p.status = ProductStatusInactive then
    .ok p
  else
    .ok { p with status := ProductStatusInactive
                 changes := p.changes.MarkDirty FieldStatus
                 events := p.events ++ [.ProductDeactivatedEvent p.id now] }

/-- Product.Archive (domain_events.go). -/
def Product.Archive (p : Product) (now : ℤ) : Except DomainError Product :=
  if p.archivedAt.isSome then
    .error .ErrProductAlreadyArchived
  else
    .ok { p with archivedAt := some now
                 changes := p.changes.MarkDirty FieldArchivedAt
                 events := p.events ++ [.ProductArchivedEvent p.id now] }

/-- Product.RemoveDiscount (domain_events.go); `now` is the `time.Now()` stamp. -/
def Product.RemoveDiscount (p : Product) (now : ℤ) : Except DomainError Product :=
  match p.discount with
  | none => .ok p
  | some _ =>
      .ok { p with discount := none
                   changes := p.changes.MarkDirty FieldDiscount
                   events := p.events ++ [.DiscountRemovedEvent p.id now] }

/-- PricingCalculator.CalculateEffectivePrice (pricing_calculator
section of the services package): nil base price gives no result; a missing or
currently-invalid discount (or a discount with a nil amount) returns the base
price; otherwise `basePrice * (NewMoney 100 - amount)` exactly. -/
def CalculateEffectivePrice (product : Product) (now : ℤ) : Option ℚ :=
  match product.basePrice with
  | none => none
  | some basePrice =>
    match product.discount with
    | none => some basePrice
    | some discount =>
      match discount.Amount with
      | none => some basePrice
      | some discountPercentage =>
        if ¬ discount.IsValidAt now then
          some basePrice
        else
          let one := NewMoney 100
          let multiplier := Subtract one discountPercentage
          some (Multiply basePrice multiplier)

/-- OutboxEvent row model (m_outbox/data.go). -/
structure OutboxEvent where
  EventID : String
  EventType : String
  AggregateID : String
  Payload : String
  Status : String
  CreatedAt : ℤ
  ProcessedAt : Option ℤ
deriving DecidableEq, Repr

/-- spanner.Mutation, restricted to the two shapes the product use cases build:
the aggregate update produced by `SpannerProductRepository.UpdateMut` (carrying
its column list) and the outbox insert produced by `OutboxEvent.InsertMut`. -/
inductive Mutation where
  | productUpdate (columns : List String)
  | outboxInsert (event : OutboxEvent)
deriving DecidableEq, Repr

/-- Plan (commitplan package): an ordered list of mutations. -/
structure Plan where
  mutations : List Mutation
deriving DecidableEq, Repr

/-- NewPlan: an empty plan. -/
def NewPlan : Plan := ⟨[]⟩

/-- Plan.Add appends a mutation, ignoring nil. -/
def Plan.Add (p : Plan) (mutation : Option Mutation) : Plan :=
  match mutation with
  | none => p
  | some m => ⟨p.mutations ++ [m]⟩

/-- Plan.Mutations returns all mutations in the plan. -/
def Plan.Mutations (p : Plan) : List Mutation := p.mutations

/-- SpannerCommitter.Apply (commitplan package): a nil or empty plan returns nil
immediately; otherwise the whole mutation list goes to `client.Apply` in one
atomic call, modelled by the injected `clientApply`. -/
def SpannerCommitterApply (clientApply : List Mutation → Except String Unit)
    (plan : Option Plan) : Except String Unit :=
  match plan with
  | none => .ok ()
  | some p =>
      if p.Mutations.length = 0 then .ok ()
      else clientApply p.Mutations

namespace UpdateProduct

/-- Request for the update_product use case (interactor.go). -/
structure Request where
  ProductID : String
  Name : Option String
  Description : Option String
  Category : Option String
deriving DecidableEq, Repr

/-- Response for the update_product use case (interactor.go). -/
structure Response where
  ProductID : String
deriving DecidableEq, Repr

/-- Interactor.eventToOutboxMutation of update_product (interactor.go):
returns nil when `json.Marshal(event.EventData())` fails, silently dropping
the outbox insert. `jsonMarshal` is the injected serializer and `newUUID` the
value of `uuid.New().String()` for this call. -/
def eventToOutboxMutation (jsonMarshal : DomainEvent → Option String)
    (newUUID : String) (event : DomainEvent) (now : ℤ) : Option Mutation :=
  match jsonMarshal event with
  | none => none
  | some eventData =>
      some (Mutation.outboxInsert
        { EventID := newUUID, EventType := event.EventName
          AggregateID := event.productID, Payload := eventData
          Status := "pending", CreatedAt := now, ProcessedAt := none })

/-- Interactor.Execute of update_product (interactor.go): load, apply request
overrides, call UpdateDetails, build the plan from the repo's update mutation
plus one outbox insert per pending event, and apply it when nonempty.
`load`, `updateMut` and `committerApply` are the injected repo and committer;
`uuids i` is the uuid drawn for the i-th event; `now` is `clock.Now()`. -/
def Execute (load : String → Except String Product)
    (updateMut : Product → Option Mutation)
    (committerApply : Plan → Except String Unit)
    (jsonMarshal : DomainEvent → Option String)
    (uuids : ℕ → String)
    (now : ℤ) (req : Request) : Except String Response :=
  match load req.ProductID with
  | .error e => .error ("failed to load product: " ++ e)
  | .ok product =>
    let name := match req.Name with
      | some n => n
      | none => product.name
    let description := match req.Description with
      | some d => d
      | none => product.description
    let category := match req.Category with
      | some c => c
      | none => product.category
    match product.UpdateDetails name description category with
    | .error e => .error ("failed to update product details: " ++ e.Error)
    | .ok product =>
      let plan := NewPlan
      let plan := match updateMut product with
        | some m => plan.Add (some m)
        | none => plan
      let plan := product.events.enum.foldl
        (fun pl ie =>
          match eventToOutboxMutation jsonMarshal (uuids ie.1) ie.2 now with
          | some m => pl.Add (some m)
          | none => pl)
        plan
      if plan.Mutations.length > 0 then
        match committerApply plan with
        | .error e => .error ("failed to update product: " ++ e)
        | .ok _ => .ok { ProductID := req.ProductID }
      else
        .ok { ProductID := req.ProductID }

end UpdateProduct

namespace ActivateProduct

/-- Request for the activate_product use case. -/
structure Request where
  ProductID : String
deriving DecidableEq, Repr

/-- Response for the activate_product use case. -/
structure Response where
  ProductID : String
deriving DecidableEq, Repr

/-- Interactor.eventToOutboxMutation of activate_product: unlike the
update_product version it propagates the serialization failure
("failed to marshal event data for event <name>"). -/
def eventToOutboxMutation (jsonMarshal : DomainEvent → Option String)
    (newUUID : String) (event : DomainEvent) (now : ℤ) : Except String Mutation :=
  match jsonMarshal event with
  | none => .error ("failed to marshal event data for event " ++ event.EventName)
  | some eventData =>
      .ok (Mutation.outboxInsert
        { EventID := newUUID, EventType := event.EventName
          AggregateID := event.productID, Payload := eventData
          Status := "pending", CreatedAt := now, ProcessedAt := none })

/-- Interactor.Execute of activate_product: like update_product's Execute but a
failed event serialization aborts the whole use case before anything is applied
("failed to create outbox event: ..."). -/
def Execute (load : String → Except String Product)
    (updateMut : Product → Option Mutation)
    (committerApply : Plan → Except String Unit)
    (jsonMarshal : DomainEvent → Option String)
    (uuids : ℕ → String)
    (now : ℤ) (req : Request) : Except String Response :=
  match load req.ProductID with
  | .error e => .error ("failed to load product: " ++ e)
  | .ok product =>
    match product.Activate now with
    | .error e => .error ("failed to activate product: " ++ e.Error)
    | .ok product =>
      let plan := NewPlan
      let plan := match updateMut product with
        | some m => plan.Add (some m)
        | none => plan
      match (product.events.enum.foldlM
        (fun pl ie =>
          match eventToOutboxMutation jsonMarshal (uuids ie.1) ie.2 now with
          | .error e => .error ("failed to create outbox event: " ++ e)
          | .ok m => .ok (pl.Add (some m)))
        plan : Except String Plan) with
      | .error e => .error e
      | .ok plan =>
        if plan.Mutations.length > 0 then
          match committerApply plan with
          | .error e => .error ("failed to activate product: " ++ e)
          | .ok _ => .ok { ProductID := req.ProductID }
        else
          .ok { ProductID := req.ProductID }

end ActivateProduct

/-- Product row model (m_product package), as read back by the repository. -/
structure ProductModel where
  ProductID : String
  Name : String
  Description : String
  Category : String
  BasePriceNumerator : ℤ
  BasePriceDenominator : ℤ
  DiscountID : Option String
  DiscountAmount : Option ℚ
  DiscountStartDate : Option ℤ
  DiscountEndDate : Option ℤ
  Status : String
  ArchivedAt : Option ℤ
  CreatedAt : ℤ
  UpdatedAt : ℤ
deriving DecidableEq, Repr

/-- SpannerProductRepository.modelToDomain (product_repo.go): rebuilds the
domain Product from a row; a status string other than "active"/"inactive"
defaults to "inactive". The Go signature also returns an error but every path
returns nil for it. -/
def modelToDomain (model : ProductModel) : Except String Product :=
  let basePrice : Option ℚ :=
    if model.BasePriceDenominator ≠ 0 then
      some (NewMoneyFromFraction model.BasePriceNumerator model.BasePriceDenominator)
    else none
  let discount : Option Discount :=
    match model.DiscountID, model.DiscountStartDate, model.DiscountEndDate with
    | some did, some sd, some ed =>
        some { ID := did, Amount := model.DiscountAmount, StartDate := sd, EndDate := ed }
    | _, _, _ => none
  let status :=
    if model.Status ≠ ProductStatusActive ∧ model.Status ≠ ProductStatusInactive then
      ProductStatusInactive
    else model.Status
  .ok (ReconstructProduct model.ProductID model.Name model.Description model.Category
        basePrice discount status model.ArchivedAt model.CreatedAt model.UpdatedAt)

namespace GetProduct

/-- DTO of the get_product query. -/
structure DTO where
  ID : String
  Name : String
  Description : String
  Category : String
  BasePrice : Option ℚ
  EffectivePrice : Option ℚ
  DiscountID : Option String
  DiscountAmount : Option ℚ
  DiscountStartDate : Option ℤ
  DiscountEndDate : Option ℤ
  Status : String
  ArchivedAt : Option ℤ
  CreatedAt : ℤ
  UpdatedAt : ℤ
deriving DecidableEq, Repr

/-- The product-reconstruction block of get_product's Query.Execute (step 2):
base price and discount are rebuilt from the DTO and any status string other
than "active"/"inactive" is normalized to "inactive" before ReconstructProduct. -/
def reconstructFromDTO (dto : DTO) : Product :=
  let basePrice : Option ℚ := dto.BasePrice
  let discount : Option Discount :=
    match dto.DiscountID, dto.DiscountStartDate, dto.DiscountEndDate with
    | some did, some sd, some ed =>
        some { ID := did, Amount := dto.DiscountAmount, StartDate := sd, EndDate := ed }
    | _, _, _ => none
  let status :=
    if dto.Status ≠ ProductStatusActive ∧ dto.Status ≠ ProductStatusInactive then
      ProductStatusInactive
    else dto.Status
  ReconstructProduct dto.ID dto.Name dto.Description dto.Category
    basePrice discount status dto.ArchivedAt dto.CreatedAt dto.UpdatedAt

/-- Query.Execute of get_product: fetch the DTO, reconstruct the domain product,
run the pricing calculator at `clock.Now()` and return the DTO with the
effective price filled in (falling back to the stored base price). -/
def Execute (getProduct : String → Except String DTO) (now : ℤ)
    (productID : String) : Except String DTO :=
  match getProduct productID with
  | .error e => .error ("failed to get product: " ++ e)
  | .ok dto =>
    let product := reconstructFromDTO dto
    let effectivePrice : Option ℚ :=
      match CalculateEffectivePrice product now with
      | some ep => some ep
      | none =>
        match dto.BasePrice with
        | some bp => some bp
        | none => none
    .ok { dto with EffectivePrice := effectivePrice }

end GetProduct

namespace ListProducts

/-- A single product item of the list_products query DTO. -/
structure ProductItem where
  ID : String
  Name : String
  Description : String
  Category : String
  BasePrice : Option ℚ
  EffectivePrice : Option ℚ
  DiscountID : Option String
  DiscountAmount : Option ℚ
  DiscountStartDate : Option ℤ
  DiscountEndDate : Option ℤ
  Status : String
  ArchivedAt : Option ℤ
  CreatedAt : ℤ
  UpdatedAt : ℤ
deriving DecidableEq, Repr

/-- The per-item product-reconstruction block of list_products' Query.Execute:
identical normalization to the get_product query, applied to each listed item. -/
def reconstructFromItem (item : ProductItem) : Product :=
  let basePrice : Option ℚ := item.BasePrice
  let discount : Option Discount :=
    match item.DiscountID, item.DiscountStartDate, item.DiscountEndDate with
    | some did, some sd, some ed =>
        some { ID := did, Amount := item.DiscountAmount, StartDate := sd, EndDate := ed }
    | _, _, _ => none
  let status :=
    if item.Status ≠ ProductStatusActive ∧ item.Status ≠ ProductStatusInactive then
      ProductStatusInactive
    else item.Status
  ReconstructProduct item.ID item.Name item.Description item.Category
    basePrice discount status item.ArchivedAt item.CreatedAt item.UpdatedAt

end ListProducts

/-- BigRatToProtoMoney (gRPC mapping helpers): scale to cents; when the scaled
value has denominator 1 the numerator converts exactly, otherwise the source
rounds through float64 with `int64(f + 0.5)`, modelled as half-up rounding of
the exact rational. -/
def BigRatToProtoMoney (rat : ℚ) : ℤ :=
  let cents := rat * 100
  if cents.den = 1 then cents.num
  else ⌊cents + 1 / 2⌋

/-- Number of product_activated events in a pending-event list. -/
def countActivated (events : List DomainEvent) : ℕ :=
  events.countP (fun e => e.EventName == "product_activated")

/-- Number of product_deactivated events in a pending-event list. -/
def countDeactivated (events : List DomainEvent) : ℕ :=
  events.countP (fun e => e.EventName == "product_deactivated")

/-! Concrete scenario inputs used by the theorems below. -/

/-- A freshly created product with base price 10000/100 ($100.00). -/
def productCreated : Product :=
  NewProduct "p1" "name" "desc" "cat" (some (NewMoney 10000))

/-- A 10% discount (amount 10/100) valid on the window (0, 10). -/
def discount10 : Discount :=
  { ID := "d1", Amount := some (NewMoney 10), StartDate := 0, EndDate := 10 }

/-- `productCreated` after Activate at 1: status "active". -/
def productActivated : Product :=
  (productCreated.Activate 1).toOption.getD productCreated

/-- `productActivated` after Archive at 2: archived, status string still "active". -/
def productArchivedActive : Product :=
  (productActivated.Archive 2).toOption.getD productCreated

/-- `productArchivedActive` after ApplyDiscount of `discount10` at 5 — the call
the archival-terminality invariant says must be rejected. -/
def productArchivedDiscounted : Product :=
  (productArchivedActive.ApplyDiscount discount10 5).toOption.getD productCreated

/-- `productActivated` after ApplyDiscount of `discount10` at 5 (Scenario A). -/
def productDiscounted : Product :=
  (productActivated.ApplyDiscount discount10 5).toOption.getD productCreated

/-- A pending ProductUpdated event, as the update_product interactor would see
one on its loaded aggregate. -/
def pendingUpdatedEvent : DomainEvent :=
  .ProductUpdatedEvent "p1" 0 ["name"]

/-- An aggregate loaded for the update use case, active and carrying one
pending domain event. -/
def loadedProductWithPendingEvent : Product :=
  { NewProduct "p1" "name" "desc" "cat" none with
      status := ProductStatusActive
      events := [pendingUpdatedEvent] }

/-- The repository's aggregate-update mutation for the loaded product. -/
def aggregateUpdateMutation : Mutation :=
  .productUpdate ["product_id", "updated_at"]

/-- A serializer for which `json.Marshal(event.EventData())` fails on every
event. -/
def failingSerializer : DomainEvent → Option String := fun _ => none

/-- A product reloaded from storage in the active state: the event list has
been reset by ReconstructProduct. -/
def reloadedActiveProduct : Product :=
  ReconstructProduct "p1" "name" "desc" "cat" none none ProductStatusActive none 0 0

/-- An active, non-archived product carrying `discount10`, reloaded from
storage. -/
def reloadedActiveDiscounted : Product :=
  ReconstructProduct "p1" "name" "desc" "cat" none (some discount10)
    ProductStatusActive none 0 0

/-- A stored row whose status column holds the empty string. -/
def emptyStatusModel : ProductModel :=
  { ProductID := "p1", Name := "name", Description := "desc", Category := "cat"
    BasePriceNumerator := 0, BasePriceDenominator := 0
    DiscountID := none, DiscountAmount := none
    DiscountStartDate := none, DiscountEndDate := none
    Status := "", ArchivedAt := none, CreatedAt := 0, UpdatedAt := 0 }

/-- The domain product the repository reconstructs from `emptyStatusModel`. -/
def emptyStatusLoaded : Product :=
  (modelToDomain emptyStatusModel).toOption.getD productCreated

/-! Theorems. -/

/-- The two IsValidAt variants bundled in the repository disagree exactly at the
start instant: the live discount.go version is strict there, the copy in
domain_events.go is inclusive. -/
theorem isValidAt_variants_differ_at_start (d : Discount) (h : d.StartDate < d.EndDate) :
    d.IsValidAt d.StartDate = false ∧ d.IsValidAt' d.StartDate = true := by
  constructor
  · simp [Discount.IsValidAt]
  · simp [Discount.IsValidAt', h]

/-- Claim C1, as stated, is false on the code: discount.go's IsValidAt is
`now.After(StartDate) && now.Before(EndDate)`, so `IsValidAt(d.StartDate)` is
false, not true. Witness: StartDate 0, EndDate 10, t = 0. -/
theorem claim_C1_counterexample :
    ¬ (∀ (d : Discount) (t : ℤ),
        d.IsValidAt t = true ↔ (d.StartDate ≤ t ∧ t < d.EndDate)) := by
  intro h
  exact absurd ((h { ID := "d1", Amount := none, StartDate := 0, EndDate := 10 } 0).mpr
    (by decide)) (by decide)

/-- Claim C1 (corrected): Discount.IsValidAt(t) holds iff StartDate < t <
EndDate (both bounds strict), so it is false at the exact StartDate and false
at the exact EndDate. -/
theorem claim_C1_amended (d : Discount) (t : ℤ) :
    (d.IsValidAt t = true ↔ (d.StartDate < t ∧ t < d.EndDate)) ∧
    d.IsValidAt d.StartDate = false ∧
    d.IsValidAt d.EndDate = false := by
  refine ⟨?_, ?_, ?_⟩ <;> simp [Discount.IsValidAt]

/-- Claim C5 (confirmed): on a freshly created product (status is the zero
value "", never activated) ApplyDiscount fails with ErrProductNotActive; the
aggregate's discount is nil and its pending-event list is empty, and the
failing call returns before mutating anything. -/
theorem claim_C5_applyDiscount_before_activate
    (id name description category : String) (basePrice : Option ℚ)
    (d : Discount) (now : ℤ) :
    (NewProduct id name description category basePrice).ApplyDiscount d now =
      .error .ErrProductNotActive ∧
    (NewProduct id name description category basePrice).discount = none ∧
    (NewProduct id name description category basePrice).events = [] := by
  refine ⟨?_, rfl, rfl⟩
  have hne : (NewProduct id name description category basePrice).status ≠
      ProductStatusActive := by
    show ("" : String) ≠ ProductStatusActive
    decide
  unfold Product.ApplyDiscount
  rw [if_pos hne]

/-- Claim C2 (code bug): Product.ApplyDiscount has no archivedAt guard, so on
a product that was activated and then archived (Archive leaves the status
string "active") applying a fresh valid discount succeeds and mutates the
archived aggregate, while Activate, Deactivate and UpdateDetails do fail with
ErrProductAlreadyArchived as the archival-terminality invariant requires. -/
theorem claim_C2_archived_applyDiscount_succeeds :
    productCreated.Activate 1 = .ok productActivated ∧
    productActivated.Archive 2 = .ok productArchivedActive ∧
    productArchivedActive.archivedAt = some 2 ∧
    productArchivedActive.status = ProductStatusActive ∧
    productArchivedActive.Activate 3 = .error .ErrProductAlreadyArchived ∧
    productArchivedActive.Deactivate 3 = .error .ErrProductAlreadyArchived ∧
    productArchivedActive.UpdateDetails "n2" "d2" "c2" =
      .error .ErrProductAlreadyArchived ∧
    productArchivedActive.ApplyDiscount discount10 5 = .ok productArchivedDiscounted ∧
    productArchivedDiscounted.discount = some discount10 ∧
    productArchivedDiscounted.events.countP
      (fun e => e.EventName == "discount_applied") = 1 := by
  decide

/-- Claim C4 (confirmed): CalculateEffectivePrice returns nothing without a
base price; returns the base price unchanged when there is no discount or the
discount is invalid at `now`; and otherwise returns exactly
basePrice * (1 - amount). Scenario A (10000/100 with a 10/100 discount valid
at 5 giving exactly 9000/100) is checked by the witness. -/
theorem claim_C4_effective_price (p : Product) (now : ℤ) :
    (p.basePrice = none → CalculateEffectivePrice p now = none) ∧
    (∀ bp, p.basePrice = some bp → p.discount = none →
      CalculateEffectivePrice p now = some bp) ∧
    (∀ bp d, p.basePrice = some bp → p.discount = some d →
      d.IsValidAt now = false → CalculateEffectivePrice p now = some bp) ∧
    (∀ bp d a, p.basePrice = some bp → p.discount = some d → d.Amount = some a →
      d.IsValidAt now = true →
      CalculateEffectivePrice p now = some (bp * (1 - a))) := by
  refine ⟨?_, ?_, ?_, ?_⟩
  · intro h
    simp [CalculateEffectivePrice, h]
  · intro bp hbp hd
    simp [CalculateEffectivePrice, hbp, hd]
  · intro bp d hbp hd hv
    cases ha : d.Amount <;> simp [CalculateEffectivePrice, hbp, hd, ha, hv]
  · intro bp d a hbp hd ha hv
    have hone : NewMoney 100 = 1 := by decide
    simp [CalculateEffectivePrice, hbp, hd, ha, hv, Multiply, Subtract, hone]

/-- Witness for claim C4: Scenario A. The product with base price 10000/100,
activated and given the 10/100 discount valid at 5, prices at exactly
9000/100. -/
theorem claim_C4_effective_price_witness :
    productActivated.ApplyDiscount discount10 5 = .ok productDiscounted ∧
    CalculateEffectivePrice productDiscounted 5 = some (mkRat 9000 100) := by
  constructor
  · decide
  · have h := (claim_C4_effective_price productDiscounted 5).2.2.2
      (NewMoney 10000) discount10 (NewMoney 10) (by decide) (by decide) rfl (by decide)
    rw [h]
    norm_num [NewMoney, Rat.mkRat_eq_div]

/-- Claim C6 (confirmed): on a non-archived product in status "active" whose
attached discount is valid at the clock reading, Deactivate fails with
ErrProductHasActiveDiscount (the failing call returns before mutating, so the
status stays "active"); RemoveDiscount then succeeds, detaches the discount,
and a subsequent Deactivate succeeds and sets the status to "inactive". -/
theorem claim_C6_deactivate_blocked_by_discount
    (p : Product) (d : Discount) (t t' t'' : ℤ)
    (harch : p.archivedAt = none) (hstat : p.status = ProductStatusActive)
    (hdisc : p.discount = some d) (hval : d.IsValidAt t = true) :
    p.Deactivate t = .error .ErrProductHasActiveDiscount ∧
    ∃ p', p.RemoveDiscount t' = .ok p' ∧ p'.discount = none ∧
      ∃ p'', p'.Deactivate t'' = .ok p'' ∧ p''.status = ProductStatusInactive := by
  have hs : ProductStatusActive ≠ ProductStatusInactive := by decide
  constructor
  · simp [Product.Deactivate, harch, hdisc, hval]
  · refine ⟨{ p with discount := none
                     changes := p.changes.MarkDirty FieldDiscount
                     events := p.events ++ [.DiscountRemovedEvent p.id t'] }, ?_, rfl, ?_⟩
    · simp [Product.RemoveDiscount, hdisc]
    · refine ⟨{ p with discount := none
                       status := ProductStatusInactive
                       changes := (p.changes.MarkDirty FieldDiscount).MarkDirty FieldStatus
                       events := (p.events ++ [.DiscountRemovedEvent p.id t']) ++
                         [.ProductDeactivatedEvent p.id t''] }, ?_, rfl⟩
      simp [Product.Deactivate, harch, hstat, hs]

/-- Witness for claim C6: the reloaded active product carrying `discount10`,
with the first Deactivate at instant 5 (inside the discount window) and the
later calls at 6 and 7. -/
theorem claim_C6_deactivate_blocked_by_discount_witness :
    reloadedActiveDiscounted.Deactivate 5 = .error .ErrProductHasActiveDiscount ∧
    ∃ p', reloadedActiveDiscounted.RemoveDiscount 6 = .ok p' ∧ p'.discount = none ∧
      ∃ p'', p'.Deactivate 7 = .ok p'' ∧ p''.status = ProductStatusInactive :=
  claim_C6_deactivate_blocked_by_discount reloadedActiveDiscounted discount10 5 6 7
    rfl rfl rfl (by decide)

/-- Claim C7, as stated, is false on the code: a non-archived product that is
already "active" (for example one just reloaded from storage, whose event list
was reset) gets zero ProductActivated events from two consecutive Activate
calls, not exactly one — both calls are no-ops. -/
theorem claim_C7_counterexample :
    reloadedActiveProduct.archivedAt = none ∧
    (reloadedActiveProduct.Activate 1).bind (fun p1 => p1.Activate 2) =
      .ok reloadedActiveProduct ∧
    countActivated reloadedActiveProduct.events = 0 := by
  decide

/-- Claim C7 (corrected): on a non-archived product that is not already
"active", two consecutive Activate calls append exactly one ProductActivated
event and mark exactly the status field dirty; the second call is a no-op
returning the aggregate unchanged. Likewise, on a non-archived product that is
not already "inactive" and has no discount valid at either clock reading, two
consecutive Deactivate calls append exactly one ProductDeactivated event, the
second being a no-op. On an aggregate already in the target status both calls
are no-ops and zero events are appended. -/
theorem claim_C7_amended :
    (∀ (p : Product) (t t' : ℤ), p.archivedAt = none →
      p.status ≠ ProductStatusActive →
      ∃ p1, p.Activate t = .ok p1 ∧ p1.Activate t' = .ok p1 ∧
        countActivated p1.events = countActivated p.events + 1 ∧
        p1.changes = p.changes.MarkDirty FieldStatus) ∧
    (∀ (p : Product) (t t' : ℤ), p.archivedAt = none →
      p.status = ProductStatusActive →
      ∃ p1, p.Activate t = .ok p1 ∧ p1.Activate t' = .ok p1 ∧
        countActivated p1.events = countActivated p.events) ∧
    (∀ (p : Product) (t t' : ℤ), p.archivedAt = none →
      p.status ≠ ProductStatusInactive →
      (∀ d, p.discount = some d → d.IsValidAt t = false ∧ d.IsValidAt t' = false) →
      ∃ p1, p.Deactivate t = .ok p1 ∧ p1.Deactivate t' = .ok p1 ∧
        countDeactivated p1.events = countDeactivated p.events + 1 ∧
        p1.changes = p.changes.MarkDirty FieldStatus) := by
  refine ⟨?_, ?_, ?_⟩
  · intro p t t' harch hstat
    refine ⟨{ p with status := ProductStatusActive
                     changes := p.changes.MarkDirty FieldStatus
                     events := p.events ++ [.ProductActivatedEvent p.id t] }, ?_, ?_, ?_, rfl⟩
    · simp [Product.Activate, harch, hstat]
    · simp [Product.Activate, harch]
    · simp [countActivated, List.countP_append, DomainEvent.EventName]
  · intro p t t' harch hstat
    refine ⟨p, ?_, ?_, rfl⟩ <;> simp [Product.Activate, harch, hstat]
  · intro p t t' harch hstat hdisc
    have hd1 : (match p.discount with
        | some d => d.IsValidAt t
        | none => false) = false := by
      cases hd : p.discount with
      | none => rfl
      | some d => exact (hdisc d hd).1
    have hd2 : (match p.discount with
        | some d => d.IsValidAt t'
        | none => false) = false := by
      cases hd : p.discount with
      | none => rfl
      | some d => exact (hdisc d hd).2
    refine ⟨{ p with status := ProductStatusInactive
                     changes := p.changes.MarkDirty FieldStatus
                     events := p.events ++ [.ProductDeactivatedEvent p.id t] }, ?_, ?_, ?_, rfl⟩
    · simp [Product.Deactivate, harch, hstat, hd1]
    · simp [Product.Deactivate, harch, hd2]
    · simp [countDeactivated, List.countP_append, DomainEvent.EventName]

/-- Witness for claim C7: the freshly created product (status "") is activated
twice appending one ProductActivated event, and the reloaded active product
(no discount) is deactivated twice appending one ProductDeactivated event. -/
theorem claim_C7_amended_witness :
    (∃ p1, productCreated.Activate 1 = .ok p1 ∧ p1.Activate 2 = .ok p1 ∧
      countActivated p1.events = countActivated productCreated.events + 1 ∧
      p1.changes = productCreated.changes.MarkDirty FieldStatus) ∧
    (∃ p1, reloadedActiveProduct.Deactivate 1 = .ok p1 ∧ p1.Deactivate 2 = .ok p1 ∧
      countDeactivated p1.events = countDeactivated reloadedActiveProduct.events + 1 ∧
      p1.changes = reloadedActiveProduct.changes.MarkDirty FieldStatus) :=
  ⟨claim_C7_amended.1 productCreated 1 2 rfl (by decide),
   claim_C7_amended.2.2 reloadedActiveProduct 1 2 rfl (by decide)
     (fun d hd => nomatch hd)⟩

/-- Claim C3 (code bug): in the update_product interactor a failed event
serialization is swallowed — eventToOutboxMutation returns nil, the outbox
insert is silently dropped, and the use case commits the aggregate mutation
alone: for every committer, Execute hands it a plan holding exactly the
aggregate update and no outbox record, and succeeds whenever the commit does.
The activate_product interactor implements the required design: the same
serialization failure aborts the whole use case before anything is applied. -/
theorem claim_C3_update_commits_partial_plan :
    (∀ c : Plan → Except String Unit,
      UpdateProduct.Execute (fun _ => .ok loadedProductWithPendingEvent)
        (fun _ => some aggregateUpdateMutation) c failingSerializer
        (fun _ => "uuid-0") 7
        { ProductID := "p1", Name := none, Description := none, Category := none } =
      match c { mutations := [aggregateUpdateMutation] } with
      | .error e => .error ("failed to update product: " ++ e)
      | .ok _ => .ok { ProductID := "p1" }) ∧
    (∀ c : Plan → Except String Unit,
      ActivateProduct.Execute (fun _ => .ok (NewProduct "p1" "name" "desc" "cat" none))
        (fun _ => some aggregateUpdateMutation) c failingSerializer
        (fun _ => "uuid-0") 7 { ProductID := "p1" } =
      .error
        "failed to create outbox event: failed to marshal event data for event product_activated") := by
  constructor <;> intro c <;> rfl

/-- Claim C8 (confirmed): Money addition is commutative, multiplying by
NewMoneyFromFraction 1 1 is the identity, and at the serialization boundary a
value whose cents-scaled form has denominator 1 converts exactly — the proto
amount is the numerator itself and no rounding branch is taken. -/
theorem claim_C8_money_algebra (a b : ℚ) :
    Add a b = Add b a ∧
    Multiply a (NewMoneyFromFraction 1 1) = a ∧
    ((a * 100).den = 1 →
      BigRatToProtoMoney a = (a * 100).num ∧
      (BigRatToProtoMoney a : ℚ) = a * 100) := by
  refine ⟨?_, ?_, ?_⟩
  · simp [Add, add_comm]
  · simp [Multiply, NewMoneyFromFraction]
  · intro h
    have hnum : BigRatToProtoMoney a = (a * 100).num := by
      simp [BigRatToProtoMoney, h]
    refine ⟨hnum, ?_⟩
    rw [hnum]
    have := Rat.num_div_den (a * 100)
    rw [h] at this
    simpa using this

/-- Witness for claim C8: one half dollar, whose cents scaling 50/1 has
denominator 1 and converts to the proto amount 50 exactly. -/
theorem claim_C8_money_algebra_witness :
    (mkRat 1 2 * 100).den = 1 ∧ BigRatToProtoMoney (mkRat 1 2) = 50 := by
  have h100 : (mkRat 1 2 * 100 : ℚ) = 50 := by norm_num [Rat.mkRat_eq_div]
  have hden : (mkRat 1 2 * 100).den = 1 := by rw [h100]; decide
  refine ⟨hden, ?_⟩
  have h := ((claim_C8_money_algebra (mkRat 1 2) 3).2.2 hden).1
  rw [h, h100]
  decide

/-- Claim C9 (confirmed): a plan with no mutations never makes a use case
fail. SpannerCommitter.Apply returns success on a nil plan and on an empty
plan without consulting the storage client, and the update use case with a
pure no-op transition (no field overrides, no repo update mutation, no pending
events) succeeds for every committer, including one that always fails —
the apply call is skipped. -/
theorem claim_C9_empty_plan_never_fails :
    (∀ clientApply : List Mutation → Except String Unit,
      SpannerCommitterApply clientApply none = .ok ()) ∧
    (∀ (clientApply : List Mutation → Except String Unit) (p : Plan),
      p.Mutations = [] → SpannerCommitterApply clientApply (some p) = .ok ()) ∧
    (∀ (load : String → Except String Product) (c : Plan → Except String Unit)
        (jsonMarshal : DomainEvent → Option String) (uuids : ℕ → String)
        (now : ℤ) (req : UpdateProduct.Request) (product : Product),
      load req.ProductID = .ok product →
      product.archivedAt = none →
      product.events = [] →
      req.Name = none → req.Description = none → req.Category = none →
      UpdateProduct.Execute load (fun _ => none) c jsonMarshal uuids now req =
        .ok { ProductID := req.ProductID }) := by
  refine ⟨fun _ => rfl, ?_, ?_⟩
  · intro clientApply p h
    simp [SpannerCommitterApply, h]
  · intro load c jsonMarshal uuids now req product hld harch hev hn hd hc
    simp [UpdateProduct.Execute, hld, hn, hd, hc, Product.UpdateDetails, harch, hev,
      NewPlan, Plan.Mutations]

/-- Witness for claim C9: the empty plan succeeds under an always-failing
client, and a no-op update of the reloaded active product succeeds under an
always-failing committer. -/
theorem claim_C9_empty_plan_never_fails_witness :
    SpannerCommitterApply (fun _ => .error "boom") (some { mutations := [] }) =
      .ok () ∧
    UpdateProduct.Execute (fun _ => .ok reloadedActiveProduct) (fun _ => none)
      (fun _ => .error "boom") (fun _ => none) (fun _ => "u") 0
      { ProductID := "p1", Name := none, Description := none, Category := none } =
      .ok { ProductID := "p1" } :=
  ⟨claim_C9_empty_plan_never_fails.2.1 (fun _ => .error "boom") { mutations := [] } rfl,
   claim_C9_empty_plan_never_fails.2.2 (fun _ => .ok reloadedActiveProduct)
     (fun _ => .error "boom") (fun _ => none) (fun _ => "u") 0
     { ProductID := "p1", Name := none, Description := none, Category := none }
     reloadedActiveProduct rfl rfl rfl rfl rfl rfl⟩

/-- Normalization behaviour of the shared status-defaulting expression: the
result is always "active" or "inactive", and any other input string maps to
"inactive". -/
theorem status_normalize_cases (s : String) :
    ((if s ≠ ProductStatusActive ∧ s ≠ ProductStatusInactive then
        ProductStatusInactive else s) = ProductStatusActive ∨
      (if s ≠ ProductStatusActive ∧ s ≠ ProductStatusInactive then
        ProductStatusInactive else s) = ProductStatusInactive) ∧
    (s ≠ ProductStatusActive → s ≠ ProductStatusInactive →
      (if s ≠ ProductStatusActive ∧ s ≠ ProductStatusInactive then
        ProductStatusInactive else s) = ProductStatusInactive) := by
  by_cases h : s ≠ ProductStatusActive ∧ s ≠ ProductStatusInactive
  · rw [if_pos h]
    exact ⟨Or.inr rfl, fun _ _ => rfl⟩
  · rw [if_neg h]
    constructor
    · rcases not_and_or.mp h with h1 | h2
      · exact Or.inl (not_not.mp h1)
      · exact Or.inr (not_not.mp h2)
    · intro h1 h2
      exact absurd ⟨h1, h2⟩ h

/-- Claim C10 (confirmed): every product reconstructed from persisted data —
by the repository's modelToDomain and by the reconstruction blocks of the
get_product and list_products queries — has status "active" or "inactive";
any other stored status string (including the empty string) is normalized to
"inactive" on load. -/
theorem claim_C10_status_normalized :
    (∀ (m : ProductModel) (p : Product), modelToDomain m = .ok p →
      (p.status = ProductStatusActive ∨ p.status = ProductStatusInactive) ∧
      (m.Status ≠ ProductStatusActive → m.Status ≠ ProductStatusInactive →
        p.status = ProductStatusInactive)) ∧
    (∀ dto : GetProduct.DTO,
      ((GetProduct.reconstructFromDTO dto).status = ProductStatusActive ∨
        (GetProduct.reconstructFromDTO dto).status = ProductStatusInactive) ∧
      (dto.Status ≠ ProductStatusActive → dto.Status ≠ ProductStatusInactive →
        (GetProduct.reconstructFromDTO dto).status = ProductStatusInactive)) ∧
    (∀ item : ListProducts.ProductItem,
      ((ListProducts.reconstructFromItem item).status = ProductStatusActive ∨
        (ListProducts.reconstructFromItem item).status = ProductStatusInactive) ∧
      (item.Status ≠ ProductStatusActive → item.Status ≠ ProductStatusInactive →
        (ListProducts.reconstructFromItem item).status = ProductStatusInactive)) := by
  refine ⟨?_, ?_, ?_⟩
  · intro m p h
    simp only [modelToDomain, Except.ok.injEq] at h
    subst h
    dsimp only [ReconstructProduct]
    exact status_normalize_cases m.Status
  · intro dto
    dsimp only [GetProduct.reconstructFromDTO, ReconstructProduct]
    exact status_normalize_cases dto.Status
  · intro item
    dsimp only [ListProducts.reconstructFromItem, ReconstructProduct]
    exact status_normalize_cases item.Status

/-- Witness for claim C10: a stored row whose status column is the empty
string loads as an "inactive" product. -/
theorem claim_C10_status_normalized_witness :
    modelToDomain emptyStatusModel = .ok emptyStatusLoaded ∧
    emptyStatusLoaded.status = ProductStatusInactive :=
  ⟨by decide,
   (claim_C10_status_normalized.1 emptyStatusModel emptyStatusLoaded (by decide)).2
     (by decide) (by decide)⟩

end Catalog
